import Mathlib

/-!
Shallow embedding of the Starbroker demo application (Next.js + LangChain +
Supabase) for checking its natural-language specification.

The embedded code comes from:
* `src/lib/chatbot/star-tools.ts` — the `search_stars` and `navigate_to_page`
  tool implementations;
* `src/app/api/chat/route.ts` — the chat route handler `POST` and its
  tool-calling round trip;
* `src/app/_components/chatbot/ChatbotInterface.tsx` — the client-side
  `detectNavigationAction` scan over the finished reply;
* `src/app/star/[id]/page.tsx` and `src/lib/supabase/stars.ts` — the star
  detail page and the by-id fetch;
* `src/lib/chatbot/chatbot-context.tsx` — `validatePersistedState` and
  `restoreState` for the `chatbot-state` local-storage entry.

Modelling conventions: dynamic JavaScript values are represented by `JSVal`,
with numbers as rationals (every numeric literal the embedded code branches on
is rational; NaN/Infinity and float rounding are outside the model). External
services are parameters: the Supabase `stars` table is a list of rows, the
hosted chat model is a function from message lists to responses, and
`JSON.parse` of untrusted text is an abstract parse function. `JSON.stringify`
followed by `JSON.parse` of values this code itself produced is treated as the
identity, so tool results travel as structured values.
-/

namespace Starbroker

/-- Dynamic JavaScript values. Numbers are rationals (see module docstring). -/
inductive JSVal where
  | undefined
  | null
  | bool (b : Bool)
  | num (q : ℚ)
  | str (s : String)
  | arr (elems : List JSVal)
  | obj (fields : List (String × JSVal))

/-- JavaScript `typeof`. -/
def jsTypeof : JSVal → String
  | .undefined => "undefined"
  | .null => "object"
  | .bool _ => "boolean"
  | .num _ => "number"
  | .str _ => "string"
  | .arr _ => "object"
  | .obj _ => "object"

/-- JavaScript falsiness (`!v`): undefined, null, false, 0 and the empty
string are falsy; objects and arrays are always truthy. -/
def jsFalsy : JSVal → Bool
  | .undefined => true
  | .null => true
  | .bool b => !b
  | .num q => q == 0
  | .str s => s == ""
  | .arr _ => false
  | .obj _ => false

/-- Property access `v.k`. `none` models a thrown TypeError (access on
null/undefined); `some .undefined` a missing property. Properties of
primitives and of arrays other than their elements are not modelled and read
as undefined (the embedded code never reads such a property). -/
def JSVal.propAccess : JSVal → String → Option JSVal
  | .null, _ => none
  | .undefined, _ => none
  | .obj fields, k => some (((fields.lookup k).getD .undefined))
  | _, _ => some .undefined

/-- Property access on a value known not to be null/undefined. -/
def getProp (v : JSVal) (k : String) : JSVal :=
  (v.propAccess k).getD .undefined

/-- Destructuring `const \x7b k = dflt \x7d = params` over a
`Record<string, any>`: the default applies when the property is absent or
holds `undefined`. -/
def destructure (params : List (String × JSVal)) (k : String) (dflt : JSVal) : JSVal :=
  match params.lookup k with
  | some .undefined => dflt
  | some v => v
  | none => dflt

/-- JS `\s` character class (the common members; exotic unicode spaces are
outside the model). -/
def isJsWhitespace (c : Char) : Bool :=
  c == ' ' || c == '\t' || c == '\n' || c == '\r' ||
  c == Char.ofNat 11 || c == Char.ofNat 12

/-- JS `String.prototype.trim()`: whitespace removed from both ends. -/
def jsTrim (s : String) : String :=
  String.mk (((s.toList.dropWhile isJsWhitespace).reverse.dropWhile isJsWhitespace).reverse)

/-- Row of the Supabase `stars` table (`src/lib/supabase/types.ts`). -/
structure Star where
  id : Int
  name : String
  photo_url : String
  description : String
  distance_light_years : ℚ
  constellation : String
  magnitude : ℚ
  created_at : String
deriving Repr, DecidableEq

/-- Case-insensitive substring test, the semantics of the `ilike`
`%pattern%` filters built in `star-tools.ts` (SQL wildcard metacharacters
inside the query string are not modelled; ASCII case folding). -/
def containsCI (hay pat : String) : Bool :=
  decide ((pat.toList.map Char.toLower) <:+: (hay.toList.map Char.toLower))

/-- The `.or(name.ilike..,constellation.ilike..,description.ilike..)` filter
of `search_stars` (star-tools.ts line 81), applied to one row. -/
def starMatches (pat : String) (s : Star) : Bool :=
  containsCI s.name pat || containsCI s.constellation pat || containsCI s.description pat

/-- Result value of the `search_stars` tool (`StarQueryResult`). -/
structure StarQueryResult where
  success : Bool
  stars : List Star
  count : Nat
  message : String
deriving Repr, DecidableEq

/-- The `searchLimit` computation of star-tools.ts line 69 together with the
destructuring default `limit = 5` of line 37. -/
def searchLimitOf (params : List (String × JSVal)) : ℚ :=
  match destructure params "limit" (.num 5) with
  | .num q => min (max 1 q) 10
  | _ => 5

/-- `searchStarsTool.execute` (star-tools.ts lines 25-125). `table` is the
Supabase `stars` table; `dbErr` models the client-creation / query error path
(lines 84-97, and the outer catch of a thrown client error, both of which
produce a structured failure). The db query itself is `filter` + `take`. -/
def searchStarsExecute (table : List Star) (dbErr : Bool)
    (params : List (String × JSVal)) : StarQueryResult :=
  let query := destructure params "query" .undefined
  match query with
  | .undefined => ⟨false, [], 0, "Invalid parameter: query is required"⟩
  | .null => ⟨false, [], 0, "Invalid parameter: query is required"⟩
  | .str s =>
    if jsTrim s = "" then
      ⟨false, [], 0, "Invalid parameter: query must be a non-empty string"⟩
    else
      if dbErr then ⟨false, [], 0, "Unable to connect to star database"⟩
      else
        let stars := (table.filter (starMatches (jsTrim s))).take (⌊searchLimitOf params⌋.toNat)
        if stars.length = 0 then
          ⟨true, [], 0, "No stars found matching your query"⟩
        else
          let suffix := if 1 < stars.length then "s" else ""
          ⟨true, stars, stars.length,
            s!"Found {stars.length} star{suffix} matching your query"⟩
  | other => ⟨false, [], 0, "Invalid parameter: query must be a string, got " ++ jsTypeof other⟩

/-- Failure value of the `navigate_to_page` tool (`ToolResponse` shape). -/
def navFail (e : String) : JSVal :=
  .obj [("success", .bool false), ("data", .null), ("error", .str e)]

/-- Success value of the `navigate_to_page` tool (`NavigationResult` shape). -/
def navOk (destination url message : String) : JSVal :=
  .obj [("success", .bool true), ("action", .str "navigate"),
        ("destination", .str destination), ("url", .str url),
        ("message", .str message)]

/-- `navigateToPageTool.execute` (star-tools.ts lines 150-218). A pure value
is returned; the tool performs no navigation. For the `/star/$\x7bstarId\x7d`
URL the JS number-to-string conversion is modelled for the integers that reach
it. -/
def navigateToPageExecute (params : List (String × JSVal)) : JSVal :=
  let destination := destructure params "destination" .undefined
  let starId := destructure params "starId" .undefined
  match destination with
  | .str "homepage" => navOk "homepage" "/" "Navigating to homepage"
  | .str "star" =>
    match starId with
    | .undefined => navFail "Star ID required for star navigation"
    | .null => navFail "Star ID required for star navigation"
    | .num q =>
      if q ≤ 0 ∨ q.den ≠ 1 then navFail "Invalid star ID. Must be a positive integer"
      else navOk "star" ("/star/" ++ toString q.num) "Navigating to star detail page"
    | _ => navFail "Invalid star ID. Must be a positive integer"
  | _ => navFail "Invalid destination. Must be \"star\" or \"homepage\""

/-! ## Chat route handler (`src/app/api/chat/route.ts`) -/

/-- One tool-call request inside a model response (`response.tool_calls[i]`).
`args := none` models a falsy `toolCall.args`, replaced by `\x7b\x7d` at
route.ts line 132. -/
structure ToolCallReq where
  id : Option String
  name : String
  args : Option (List (String × JSVal))

/-- Response of one model invocation: final text content plus requested tool
calls (content collapsed to a string, as `response.content.toString()` does). -/
structure ModelResponse where
  content : String
  tool_calls : List ToolCallReq

/-- Outcome of a `toolDef.execute` body: a returned value, or a thrown
exception carrying its message. -/
inductive ToolRun where
  | ok (v : JSVal)
  | thrown (msg : String)

/-- A tool as registered with the route (`starTools` entry wrapped into a
`DynamicStructuredTool`). `exec` is the raw `execute` body. -/
structure RouteTool where
  name : String
  exec : List (String × JSVal) → ToolRun

/-- The `func` wrapper built at route.ts lines 52-64: a throwing `execute`
is caught and converted to a structured error value. Serialization of the
result (`JSON.stringify`) and its later re-parse are treated as the
identity, so the content stays a `JSVal`. -/
def wrappedFunc (t : RouteTool) (args : List (String × JSVal)) : JSVal :=
  match t.exec args with
  | .ok v => v
  | .thrown m => .obj [("success", .bool false), ("error", .str ("Tool execution failed: " ++ m))]

/-- A tool message recorded in `toolMessages` (route.ts line 111). -/
structure ToolMsg where
  content : JSVal
  tool_call_id : Option String
  toolName : String

/-- Body of the per-tool-call loop (route.ts lines 118-167): look the tool up
by name; execute it on `toolCall.args || \x7b\x7d`; an unknown name yields a
synthetic error tool-result. -/
def runToolCall (tools : List RouteTool) (tc : ToolCallReq) : ToolMsg :=
  match tools.find? (fun t => t.name == tc.name) with
  | some t =>
    { content := wrappedFunc t (tc.args.getD []),
      tool_call_id := tc.id, toolName := tc.name }
  | none =>
    { content := .obj [("success", .bool false),
        ("error", .str ("Tool \"" ++ tc.name ++ "\" not found"))],
      tool_call_id := tc.id, toolName := tc.name }

/-- LangChain-level chat messages sent to the model. -/
inductive ChatMsg where
  | system (content : String)
  | human (content : String)
  | ai (content : String) (tool_calls : List ToolCallReq)
  | tool (content : JSVal) (tool_call_id : Option String)

/-- Request body of `POST /api/chat` (`ChatRequest`), history entries as
(role, content) pairs. -/
structure ChatReq where
  message : String
  history : List (String × String)
  systemPrompt : Option String

/-- Message-list construction of route.ts lines 81-99: optional system
prompt, history entries mapped by role (other roles dropped), then the
current message. -/
def buildMessages (req : ChatReq) : List ChatMsg :=
  (match req.systemPrompt with
   | some sp => [ChatMsg.system sp]
   | none => []) ++
  req.history.filterMap (fun p =>
    if p.1 == "user" then some (ChatMsg.human p.2)
    else if p.1 == "assistant" then some (ChatMsg.ai p.2 [])
    else if p.1 == "system" then some (ChatMsg.system p.2)
    else none) ++
  [ChatMsg.human req.message]

/-- The navigation test of route.ts lines 194-201: parse the tool-result
content and test `parsed.action === 'navigate'`; a parse failure or a thrown
property access yields false. With content kept structured, "parses" always
succeeds and only the property test remains. -/
def isNavigateContent (v : JSVal) : Bool :=
  match v.propAccess "action" with
  | some (.str "navigate") => true
  | _ => false

/-- Template-literal conversion `$\x7bv\x7d` of a JS value. Only the string
case is exercised by this application's tool results; the numeric rendering
is approximate (exact for integers) and array/object rendering simplified. -/
def jsToDisplay : JSVal → String
  | .str s => s
  | .bool b => cond b "true" "false"
  | .null => "null"
  | .undefined => "undefined"
  | .num q => if q.den = 1 then toString q.num else toString q
  | .arr _ => ""
  | .obj _ => "[object Object]"

/-- The `navData.message || ''` of route.ts line 205. -/
def messageOrEmpty (v : JSVal) : String :=
  match v.propAccess "message" with
  | some m => if jsFalsy m then "" else jsToDisplay m
  | none => ""

/-- The hard-coded fallback of route.ts lines 189-210, applied when the
second invocation yields empty content: the first tool result whose parsed
content declares `action:'navigate'` selects the navigation text, otherwise
the generic success text. -/
def fallbackContent (toolMessages : List ToolMsg) : String :=
  match toolMessages.find? (fun m => isNavigateContent m.content) with
  | some navMsg => "I'll take you to that page now. " ++ messageOrEmpty navMsg.content
  | none => "I found the information you requested. Let me know if you need anything else!"

/-- Content chosen after the second invocation (route.ts line 190): the
model's text when non-blank, else the fallback. -/
def secondContent (toolMessages : List ToolMsg) (resp2 : ModelResponse) : String :=
  if jsTrim resp2.content = "" then fallbackContent toolMessages else resp2.content

/-- The tool messages produced for one response's tool calls. -/
def toolMessagesFor (tools : List RouteTool) (resp1 : ModelResponse) : List ToolMsg :=
  resp1.tool_calls.map (runToolCall tools)

/-- Message list for the second invocation (route.ts lines 169-182): the
first list, the assistant turn carrying the tool calls, then one tool message
per result. -/
def secondMessages (tools : List RouteTool) (msgs : List ChatMsg)
    (resp1 : ModelResponse) : List ChatMsg :=
  msgs ++ [ChatMsg.ai resp1.content resp1.tool_calls] ++
    (toolMessagesFor tools resp1).map (fun m => ChatMsg.tool m.content m.tool_call_id)

/-- Body streamed to the client (route.ts lines 227-233): the content when
truthy, else a last-resort placeholder. -/
def finalBody (c : String) : String :=
  if c = "" then "I processed your request." else c

/-- Observable steps the handler takes, in order. -/
inductive RouteEvent where
  | modelInvoke
  | toolExec (name : String)
deriving Repr, DecidableEq

/-- Result of one `POST /api/chat` call: HTTP status, plain-text body (for
500, the JSON error message), and the event trace. -/
structure RouteResult where
  status : Nat
  body : String
  events : List RouteEvent

/-- The `POST` handler (route.ts lines 24-256). `apiKey` is
`process.env.OPENAI_API_KEY`; `model` the bound hosted model, a function of
the message list it is invoked on; `tools` the registry built from
`starTools`. The outer catch (lines 249-255) is unreachable here because
every embedded step is total. -/
def chatPOST (apiKey : Option String) (tools : List RouteTool)
    (model : List ChatMsg → ModelResponse) (req : ChatReq) : RouteResult :=
  match apiKey with
  | none => { status := 500, body := "OpenAI API key not configured", events := [] }
  | some _ =>
    let messages := buildMessages req
    let resp1 := model messages
    if resp1.tool_calls.isEmpty then
      { status := 200, body := finalBody resp1.content, events := [.modelInvoke] }
    else
      let toolMessages := toolMessagesFor tools resp1
      let resp2 := model (secondMessages tools messages resp1)
      { status := 200,
        body := finalBody (secondContent toolMessages resp2),
        events := [RouteEvent.modelInvoke] ++
          resp1.tool_calls.map (fun tc => RouteEvent.toolExec tc.name) ++
          [RouteEvent.modelInvoke] }

/-! ## Client navigation detection
(`src/app/_components/chatbot/ChatbotInterface.tsx`) -/

/-- Strip a literal character sequence from the front, or fail. -/
def stripLit : List Char → List Char → Option (List Char)
  | [], cs => some cs
  | _ :: _, [] => none
  | p :: ps, c :: cs => if p == c then stripLit ps cs else none

/-- Characters of the literal marker in the regex of ChatbotInterface.tsx
line 39. -/
def markerChars : List Char := "[Tool: navigate_to_page]".toList

/-- Lazy tail of the regex group `\x7b[\s\S]*?\x7d`: the characters up to and
including the first closing brace. -/
def takeUntilBrace : List Char → Option (List Char)
  | [] => none
  | c :: cs => if c == '}' then some [c] else (takeUntilBrace cs).map (c :: ·)

/-- The match of `/\[Tool: navigate_to_page\]\s*(\x7b[\s\S]*?\x7d)/` against
the reply text: at each position, the literal marker followed by whitespace
and a brace-delimited blob; the first matching position wins, and a marker
occurrence with no well-placed blob lets the scan continue. Returns the
captured group. -/
def scanForNav : List Char → Option String
  | [] => none
  | c :: cs =>
    match stripLit markerChars (c :: cs) with
    | some rest =>
      match rest.dropWhile isJsWhitespace with
      | '{' :: rs =>
        match takeUntilBrace rs with
        | some blob => some (String.mk ('{' :: blob))
        | none => scanForNav cs
      | _ => scanForNav cs
    | none => scanForNav cs

/-- `detectNavigationAction` (ChatbotInterface.tsx lines 36-54). `parse`
abstracts `JSON.parse` on the captured blob; `none` is a parse failure
(caught, yielding null). The field tests mirror
`toolResult.success && toolResult.action === 'navigate' && toolResult.url`,
where a property access on a null/undefined parse result throws and is
caught, yielding null as well. -/
def detectNavigationAction (parse : String → Option JSVal) (text : String) : Option JSVal :=
  match scanForNav text.toList with
  | none => none
  | some blob =>
    match parse blob with
    | none => none
    | some v =>
      match v.propAccess "success" with
      | none => none
      | some s =>
        if jsFalsy s then none
        else
          match getProp v "action" with
          | .str "navigate" => if jsFalsy (getProp v "url") then none else some v
          | _ => none

/-- Pending navigation set by `handleSendMessage` (ChatbotInterface.tsx lines
179-206): the streamed chunks are first accumulated into the full reply, and
only the finished text is scanned. -/
def pendingAfterReply (parse : String → Option JSVal) (chunks : List String) : Option JSVal :=
  detectNavigationAction parse (String.join chunks)

/-! ## Star detail page (`src/app/star/[id]/page.tsx`,
`src/lib/supabase/stars.ts`) -/

/-- Digit run at the front of the characters, as a number; `none` when there
is no digit (large-magnitude float rounding of JS `parseInt` is outside the
model). -/
def digitsVal (cs : List Char) : Option Nat :=
  let ds := cs.takeWhile Char.isDigit
  if ds.isEmpty then none
  else some (ds.foldl (fun a c => a * 10 + (c.toNat - '0'.toNat)) 0)

/-- JS `parseInt(s, 10)`: leading whitespace skipped, optional sign, longest
digit run; `none` models NaN. -/
def parseIntJS (s : String) : Option Int :=
  match s.toList.dropWhile isJsWhitespace with
  | '-' :: rest => (digitsVal rest).map (fun n => -(n : Int))
  | '+' :: rest => (digitsVal rest).map (fun n => (n : Int))
  | cs => (digitsVal cs).map (fun n => (n : Int))

/-- `getStarById` (stars.ts lines 55-102): `.eq('id', id).single()`, with the
PGRST116 no-row error mapped to null. Ids are assumed unique in the table, so
the first match stands for the single row. -/
def getStarById (table : List Star) (id : Int) : Option Star :=
  table.find? (fun s => s.id == id)

/-- Rendering outcome of the star detail page; `notFound` is the Next.js
404-equivalent state. -/
inductive PageResult where
  | notFound
  | render (star : Star)
deriving Repr

/-- `StarDetailPage` (page.tsx lines 10-27): parse the id route parameter,
404 on NaN, fetch by id, 404 on null, else render. -/
def starDetailPage (table : List Star) (id : String) : PageResult :=
  match parseIntJS id with
  | none => .notFound
  | some n =>
    match getStarById table n with
    | none => .notFound
    | some s => .render s

/-! ## Persistence shim (`src/lib/chatbot/chatbot-context.tsx`) -/

/-- Array test `Array.isArray`. -/
def isArray : JSVal → Bool
  | .arr _ => true
  | _ => false

/-- Elements of an array value. -/
def arrElems : JSVal → List JSVal
  | .arr xs => xs
  | _ => []

/-- Boolean payload of a value known to be a boolean. -/
def asBool : JSVal → Bool
  | .bool b => b
  | _ => false

/-- Per-message check of `validatePersistedState` (chatbot-context.tsx lines
65-69): `none` models the TypeError thrown by a property access on a
null/undefined element. -/
def validMsg (m : JSVal) : Option Bool :=
  match m with
  | .null => none
  | .undefined => none
  | _ => some (!jsFalsy (getProp m "id") && !jsFalsy (getProp m "role") &&
      !jsFalsy (getProp m "content") && (jsTypeof (getProp m "timestamp") == "number"))

/-- The `for..of` loop over `data.messages`: first failure wins, a thrown
access propagates. -/
def checkMsgs : List JSVal → Option Bool
  | [] => some true
  | m :: ms =>
    match validMsg m with
    | none => none
    | some false => some false
    | some true => checkMsgs ms

/-- `validatePersistedState` (chatbot-context.tsx lines 55-72). `none` models
a thrown TypeError escaping the function; `some b` its boolean verdict. -/
def validatePersistedState (data : JSVal) : Option Bool :=
  if jsFalsy data then some false
  else if jsTypeof data != "object" then some false
  else if !isArray (getProp data "messages") then some false
  else if jsTypeof (getProp data "isMinimized") != "boolean" then some false
  else if jsTypeof (getProp data "isOpen") != "boolean" then some false
  else if jsTypeof (getProp data "version") != "string" then some false
  else checkMsgs (arrElems (getProp data "messages"))

/-- What `localStorage.getItem('chatbot-state')` plus `JSON.parse` yielded:
no entry, an entry that fails to parse, or the parsed value. -/
inductive StoredEntry where
  | absent
  | unparsable
  | value (v : JSVal)

/-- State restored by `restoreState` for the provider (messages kept as raw
values; the version field is validated but not returned). -/
structure RestoredState where
  messages : List JSVal
  isMinimized : Bool
  isOpen : Bool

/-- `restoreState` (chatbot-context.tsx lines 77-110): result together with
whether `localStorage.removeItem` was called. A parse error or a thrown
validation access lands in the catch (remove, null); a false verdict warns,
removes and returns null; a version mismatch only logs. -/
def restoreState (entry : StoredEntry) : Option RestoredState × Bool :=
  match entry with
  | .absent => (none, false)
  | .unparsable => (none, true)
  | .value v =>
    match validatePersistedState v with
    | none => (none, true)
    | some false => (none, true)
    | some true =>
      (some { messages := arrElems (getProp v "messages"),
              isMinimized := asBool (getProp v "isMinimized"),
              isOpen := asBool (getProp v "isOpen") }, false)

/-! ## Helper lemmas -/

/-- Reading the `success` field of a navigate-tool failure value. -/
lemma getProp_navFail_success (e : String) : getProp (navFail e) "success" = .bool false := rfl

/-- Reading the `error` field of a navigate-tool failure value. -/
lemma getProp_navFail_error (e : String) : getProp (navFail e) "error" = .str e := rfl

/-- The search limit is between 1 and 10. -/
lemma searchLimitOf_bounds (params : List (String × JSVal)) :
    1 ≤ searchLimitOf params ∧ searchLimitOf params ≤ 10 := by
  unfold searchLimitOf
  split
  · constructor
    · exact le_min (le_max_left _ _) (by norm_num)
    · exact min_le_right _ _
  · norm_num

/-- The floored search limit never exceeds 10. -/
lemma floor_searchLimitOf_le (params : List (String × JSVal)) :
    ⌊searchLimitOf params⌋.toNat ≤ 10 := by
  have h := (searchLimitOf_bounds params).2
  have h2 : ⌊searchLimitOf params⌋ ≤ 10 := by
    calc ⌊searchLimitOf params⌋ ≤ ⌊(10 : ℚ)⌋ := Int.floor_le_floor h
    _ = 10 := by norm_num
  omega

/-! ## Claims about the tools -/

/-- Claim C3: the navigate tool sends destination `homepage` to url `/`,
destination `star` with `starId` 42 to `/star/42`, rejects `starId` -1 and
2.5 with a failure whose error reads "Invalid star ID. Must be a positive
integer", and every successful result is exactly a
`\x7bsuccess, action:'navigate', destination, url, message\x7d` value (the
tool is a pure function; no navigation happens in it). -/
theorem navigate_tool_results :
    navigateToPageExecute [("destination", .str "homepage")] =
      navOk "homepage" "/" "Navigating to homepage" ∧
    navigateToPageExecute [("destination", .str "star"), ("starId", .num 42)] =
      navOk "star" "/star/42" "Navigating to star detail page" ∧
    navigateToPageExecute [("destination", .str "star"), ("starId", .num (-1))] =
      navFail "Invalid star ID. Must be a positive integer" ∧
    navigateToPageExecute [("destination", .str "star"), ("starId", .num (5/2))] =
      navFail "Invalid star ID. Must be a positive integer" ∧
    ∀ params, getProp (navigateToPageExecute params) "success" = .bool true →
      ∃ d u m, navigateToPageExecute params = navOk d u m := by
  refine ⟨rfl, rfl, rfl, ?_, ?_⟩
  · have h52 : (5/2 : ℚ) = mkRat 5 2 := by norm_num [mkRat]
    rw [h52]; rfl
  · intro params h
    revert h
    unfold navigateToPageExecute
    dsimp only
    split
    · intro _; exact ⟨_, _, _, rfl⟩
    · split
      · intro h; rw [getProp_navFail_success] at h; simp at h
      · intro h; rw [getProp_navFail_success] at h; simp at h
      · split
        · intro h; rw [getProp_navFail_success] at h; simp at h
        · intro _; exact ⟨_, _, _, rfl⟩
      · intro h; rw [getProp_navFail_success] at h; simp at h
    · intro h; rw [getProp_navFail_success] at h; simp at h

/-- Witness for C3 at the homepage input. -/
theorem navigate_tool_results_witness :
    getProp (navigateToPageExecute [("destination", JSVal.str "homepage")]) "success" =
      JSVal.bool true ∧
    ∃ d u m, navigateToPageExecute [("destination", JSVal.str "homepage")] = navOk d u m :=
  ⟨rfl, navigate_tool_results.2.2.2.2 [("destination", JSVal.str "homepage")] rfl⟩

/-- Claim C4: the effective search limit is `min(max(1, limit), 10)` when the
`limit` parameter is a number and 5 when it is absent or not a number, and
the returned rows never exceed it: `limit := 50` caps at 10 rows, an omitted
limit at 5. -/
theorem search_tool_limit_clamped :
    (∀ params q, destructure params "limit" (.num 5) = .num q →
      searchLimitOf params = min (max 1 q) 10) ∧
    (∀ params, jsTypeof (destructure params "limit" (.num 5)) ≠ "number" →
      searchLimitOf params = 5) ∧
    (∀ table dbErr params,
      (searchStarsExecute table dbErr params).stars.length ≤ ⌊searchLimitOf params⌋.toNat) ∧
    (∀ table dbErr query,
      (searchStarsExecute table dbErr [("query", query), ("limit", .num 50)]).stars.length ≤ 10) ∧
    (∀ table dbErr query,
      (searchStarsExecute table dbErr [("query", query)]).stars.length ≤ 5) := by
  have hlen : ∀ table dbErr params,
      (searchStarsExecute table dbErr params).stars.length ≤ ⌊searchLimitOf params⌋.toNat := by
    intro table dbErr params
    unfold searchStarsExecute
    dsimp only
    split
    · simp
    · simp
    · split
      · simp
      · split
        · simp
        · split
          · simp
          · simp [List.length_take]
    · simp
  refine ⟨?_, ?_, hlen, ?_, ?_⟩
  · intro params q h
    unfold searchLimitOf
    rw [h]
  · intro params h
    unfold searchLimitOf
    cases hd : destructure params "limit" (.num 5) <;> try rfl
    · rw [hd] at h; exact absurd rfl h
  · intro table dbErr query
    have h := hlen table dbErr [("query", query), ("limit", .num 50)]
    have h10 : ⌊searchLimitOf [("query", query), ("limit", JSVal.num 50)]⌋.toNat = 10 := rfl
    rw [h10] at h
    exact h
  · intro table dbErr query
    have h := hlen table dbErr [("query", query)]
    have h5 : ⌊searchLimitOf [("query", query)]⌋.toNat = 5 := rfl
    rw [h5] at h
    exact h

/-- Witness for C4 at concrete inputs. -/
theorem search_tool_limit_clamped_witness :
    searchLimitOf [("limit", JSVal.num 50)] = min (max 1 50) 10 ∧
    searchLimitOf [("limit", JSVal.str "many")] = 5 ∧
    (searchStarsExecute [] false [("query", JSVal.str "a"), ("limit", JSVal.num 50)]).stars.length ≤ 10 :=
  ⟨search_tool_limit_clamped.1 [("limit", JSVal.num 50)] 50 rfl,
   search_tool_limit_clamped.2.1 [("limit", JSVal.str "many")] (by simp [destructure, jsTypeof]),
   search_tool_limit_clamped.2.2.2.1 [] false (JSVal.str "a")⟩

/-- Claim C5: a missing (undefined/null), non-string or blank query yields the
structured failure `\x7bsuccess:false, stars:[], count:0, message\x7d` (the
tool is a total function: nothing is thrown), and a valid query matching no
row yields `success:true, count:0` with an empty stars array. -/
theorem search_tool_query_validation :
    (∀ table dbErr params,
      (destructure params "query" .undefined = .undefined ∨
       destructure params "query" .undefined = .null ∨
       jsTypeof (destructure params "query" .undefined) ≠ "string" ∨
       (∃ s, destructure params "query" .undefined = .str s ∧ jsTrim s = "")) →
      (searchStarsExecute table dbErr params).success = false ∧
      (searchStarsExecute table dbErr params).stars = [] ∧
      (searchStarsExecute table dbErr params).count = 0) ∧
    (∀ table params s, destructure params "query" .undefined = .str s → jsTrim s ≠ "" →
      table.filter (starMatches (jsTrim s)) = [] →
      searchStarsExecute table false params =
        ⟨true, [], 0, "No stars found matching your query"⟩) := by
  constructor
  · intro table dbErr params h
    unfold searchStarsExecute
    dsimp only
    cases hd : destructure params "query" .undefined with
    | str s =>
      rw [hd] at h
      rcases h with h | h | h | ⟨s', hs', htrim⟩
      · exact absurd h (by simp)
      · exact absurd h (by simp)
      · exact absurd rfl h
      · have hss : s = s' := by
          have := hs'
          simp only [JSVal.str.injEq] at this
          exact this
        dsimp only
        rw [if_pos (hss ▸ htrim)]
        exact ⟨rfl, rfl, rfl⟩
    | undefined => exact ⟨rfl, rfl, rfl⟩
    | null => exact ⟨rfl, rfl, rfl⟩
    | bool b => exact ⟨rfl, rfl, rfl⟩
    | num q => exact ⟨rfl, rfl, rfl⟩
    | arr xs => exact ⟨rfl, rfl, rfl⟩
    | obj fs => exact ⟨rfl, rfl, rfl⟩
  · intro table params s h htrim hfilter
    unfold searchStarsExecute
    dsimp only
    rw [h]
    dsimp only
    rw [if_neg htrim, if_neg (by simp : ¬ false = true), hfilter]
    simp

/-- Witness for C5: an empty-object parameter record fails structurally, and
a valid query over an empty table matches nothing. -/
theorem search_tool_query_validation_witness :
    ((searchStarsExecute [] false []).success = false ∧
      (searchStarsExecute [] false []).stars = [] ∧
      (searchStarsExecute [] false []).count = 0) ∧
    searchStarsExecute [] false [("query", JSVal.str "sirius")] =
      ⟨true, [], 0, "No stars found matching your query"⟩ :=
  ⟨search_tool_query_validation.1 [] false [] (Or.inl rfl),
   search_tool_query_validation.2 [] [("query", JSVal.str "sirius")] "sirius" rfl
     (by decide) rfl⟩

/-- Claim C10: every search-tool result has `count = stars.length`, the rows
never exceed the floored clamped limit (so never exceed 10), and every
failure result carries an empty stars array and a zero count. -/
theorem search_tool_result_invariant (table : List Star) (dbErr : Bool)
    (params : List (String × JSVal)) :
    (searchStarsExecute table dbErr params).count =
      (searchStarsExecute table dbErr params).stars.length ∧
    (searchStarsExecute table dbErr params).stars.length ≤ ⌊searchLimitOf params⌋.toNat ∧
    (searchStarsExecute table dbErr params).stars.length ≤ 10 ∧
    ((searchStarsExecute table dbErr params).success = false →
      (searchStarsExecute table dbErr params).stars = [] ∧
      (searchStarsExecute table dbErr params).count = 0) := by
  have hlen : (searchStarsExecute table dbErr params).stars.length ≤ ⌊searchLimitOf params⌋.toNat := by
    unfold searchStarsExecute
    dsimp only
    split
    · simp
    · simp
    · split
      · simp
      · split
        · simp
        · split
          · simp
          · simp [List.length_take]
    · simp
  refine ⟨?_, hlen, le_trans hlen (floor_searchLimitOf_le params), ?_⟩
  · unfold searchStarsExecute
    dsimp only
    split
    · rfl
    · rfl
    · split
      · rfl
      · split
        · rfl
        · split
          · rfl
          · rfl
    · rfl
  · unfold searchStarsExecute
    dsimp only
    split
    · exact fun _ => ⟨rfl, rfl⟩
    · exact fun _ => ⟨rfl, rfl⟩
    · split
      · exact fun _ => ⟨rfl, rfl⟩
      · split
        · exact fun _ => ⟨rfl, rfl⟩
        · split
          · exact fun _ => ⟨rfl, rfl⟩
          · intro hs; exact absurd hs (by simp)
    · exact fun _ => ⟨rfl, rfl⟩

/-- Witness for C10 at a concrete failing call. -/
theorem search_tool_result_invariant_witness :
    (searchStarsExecute [] true [("query", JSVal.str "x")]).stars = [] ∧
    (searchStarsExecute [] true [("query", JSVal.str "x")]).count = 0 :=
  (search_tool_result_invariant [] true [("query", JSVal.str "x")]).2.2.2 rfl

/-! ## Claims about the chat route handler -/

/-- Tool-execution events contribute no model invocations to the trace. -/
lemma count_modelInvoke_toolExecs (tcs : List ToolCallReq) :
    (tcs.map (fun tc => RouteEvent.toolExec tc.name)).count RouteEvent.modelInvoke = 0 := by
  simp [List.count_eq_zero]

/-- Claim C1: whenever the first response carries tool calls, the handler
runs each requested call by name through the registry (`runToolCall`, whose
results also feed the second invocation via `secondMessages`), then invokes
the model exactly once more; the trace never holds a third invocation, for
any request and any model behaviour, and in general at most two. -/
theorem chat_route_two_invocations :
    (∀ apiKey tools model req,
      ((chatPOST apiKey tools model req).events.count RouteEvent.modelInvoke) ≤ 2) ∧
    (∀ k tools model req,
      (model (buildMessages req)).tool_calls ≠ [] →
      chatPOST (some k) tools model req =
        ⟨200,
         finalBody (secondContent (toolMessagesFor tools (model (buildMessages req)))
           (model (secondMessages tools (buildMessages req) (model (buildMessages req))))),
         [RouteEvent.modelInvoke] ++
           (model (buildMessages req)).tool_calls.map (fun tc => RouteEvent.toolExec tc.name) ++
           [RouteEvent.modelInvoke]⟩ ∧
      ((chatPOST (some k) tools model req).events.count RouteEvent.modelInvoke = 2)) := by
  have hmain : ∀ k tools model req,
      (model (buildMessages req)).tool_calls ≠ [] →
      chatPOST (some k) tools model req =
        ⟨200,
         finalBody (secondContent (toolMessagesFor tools (model (buildMessages req)))
           (model (secondMessages tools (buildMessages req) (model (buildMessages req))))),
         [RouteEvent.modelInvoke] ++
           (model (buildMessages req)).tool_calls.map (fun tc => RouteEvent.toolExec tc.name) ++
           [RouteEvent.modelInvoke]⟩ := by
    intro k tools model req h
    unfold chatPOST
    dsimp only
    rw [if_neg (by simpa [List.isEmpty_iff] using h)]
  constructor
  · intro apiKey tools model req
    unfold chatPOST
    cases apiKey with
    | none => simp
    | some k =>
      dsimp only
      split
      · simp
      · simp [List.count_append, count_modelInvoke_toolExecs]
  · intro k tools model req h
    refine ⟨hmain k tools model req h, ?_⟩
    rw [hmain k tools model req h]
    simp [List.count_append, count_modelInvoke_toolExecs]

/-- Witness for C1 with a model that requests one search call. -/
theorem chat_route_two_invocations_witness :
    (chatPOST (some "key") []
      (fun msgs => match msgs with
        | [ChatMsg.human _] => ⟨"", [⟨some "1", "search_stars", none⟩]⟩
        | _ => ⟨"done", []⟩)
      ⟨"hi", [], none⟩).events.count RouteEvent.modelInvoke = 2 :=
  (chat_route_two_invocations.2 "key" []
    (fun msgs => match msgs with
      | [ChatMsg.human _] => ⟨"", [⟨some "1", "search_stars", none⟩]⟩
      | _ => ⟨"done", []⟩)
    ⟨"hi", [], none⟩ (by simp [buildMessages])).2

/-- Nonemptiness of the two fallback strings, for `finalBody`. -/
lemma navText_ne_empty (t : String) :
    "I'll take you to that page now. " ++ t ≠ "" := by
  intro h
  have h0 : ("I'll take you to that page now. " ++ t).length = 0 := by rw [h]; rfl
  rw [String.length_append] at h0
  have h1 : ("I'll take you to that page now. ").length = 32 := rfl
  rw [h1] at h0
  omega

/-- Claim C2: when tools ran and the second invocation's content is blank,
the handler substitutes the hard-coded text without another model call: the
navigation text (built from the first tool result whose content declares
`action:'navigate'`) when one exists, else the generic success text — also
when every tool result is a failure value. -/
theorem chat_route_empty_content_fallback (k : String) (tools : List RouteTool)
    (model : List ChatMsg → ModelResponse) (req : ChatReq)
    (h1 : (model (buildMessages req)).tool_calls ≠ [])
    (h2 : jsTrim (model (secondMessages tools (buildMessages req)
      (model (buildMessages req)))).content = "") :
    (chatPOST (some k) tools model req).events.count RouteEvent.modelInvoke = 2 ∧
    (∀ m, (toolMessagesFor tools (model (buildMessages req))).find?
        (fun m => isNavigateContent m.content) = some m →
      (chatPOST (some k) tools model req).body =
        "I'll take you to that page now. " ++ messageOrEmpty m.content) ∧
    ((toolMessagesFor tools (model (buildMessages req))).find?
        (fun m => isNavigateContent m.content) = none →
      (chatPOST (some k) tools model req).body =
        "I found the information you requested. Let me know if you need anything else!") ∧
    ((∀ m ∈ toolMessagesFor tools (model (buildMessages req)),
        isNavigateContent m.content = false) →
      (chatPOST (some k) tools model req).body =
        "I found the information you requested. Let me know if you need anything else!") := by
  have hr := (chat_route_two_invocations.2 k tools model req h1).1
  refine ⟨(chat_route_two_invocations.2 k tools model req h1).2, ?_, ?_, ?_⟩
  · intro m hm
    rw [hr]
    dsimp only
    unfold secondContent
    rw [if_pos h2]
    unfold fallbackContent
    rw [hm]
    unfold finalBody
    rw [if_neg (navText_ne_empty _)]
  · intro hnone
    rw [hr]
    dsimp only
    unfold secondContent
    rw [if_pos h2]
    unfold fallbackContent
    rw [hnone]
    rfl
  · intro hall
    have hnone : (toolMessagesFor tools (model (buildMessages req))).find?
        (fun m => isNavigateContent m.content) = none := by
      rw [List.find?_eq_none]
      intro m hm
      simp [hall m hm]
    rw [hr]
    dsimp only
    unfold secondContent
    rw [if_pos h2]
    unfold fallbackContent
    rw [hnone]
    rfl

/-- Witness for C2: a model that always replies blank after requesting an
unknown tool, whose synthetic error result is no navigation, yields the
generic success text. -/
theorem chat_route_empty_content_fallback_witness :
    (chatPOST (some "key") []
      (fun msgs => match msgs with
        | [ChatMsg.human _] => ⟨"", [⟨some "1", "lookup", none⟩]⟩
        | _ => ⟨"  ", []⟩)
      ⟨"hi", [], none⟩).body =
      "I found the information you requested. Let me know if you need anything else!" :=
  (chat_route_empty_content_fallback "key" []
    (fun msgs => match msgs with
      | [ChatMsg.human _] => ⟨"", [⟨some "1", "lookup", none⟩]⟩
      | _ => ⟨"  ", []⟩)
    ⟨"hi", [], none⟩ (by simp [buildMessages]) rfl).2.2.1 rfl

/-- Claim C7: a tool-call request naming no registered tool yields the
synthetic `\x7bsuccess:false, error:'Tool "name" not found'\x7d` tool result
(no exception), a throwing tool body is converted by the wrapper into a
`\x7bsuccess:false, error:...\x7d` result, and the handler still answers
HTTP 200 whenever a key is configured. -/
theorem chat_route_tool_failure_handling :
    (∀ tools tc, tools.find? (fun t => t.name == tc.name) = none →
      runToolCall tools tc =
        ⟨.obj [("success", .bool false),
               ("error", .str ("Tool \"" ++ tc.name ++ "\" not found"))],
         tc.id, tc.name⟩) ∧
    (∀ t args m, t.exec args = ToolRun.thrown m →
      wrappedFunc t args =
        .obj [("success", .bool false),
              ("error", .str ("Tool execution failed: " ++ m))]) ∧
    (∀ k tools model req, (chatPOST (some k) tools model req).status = 200) := by
  refine ⟨?_, ?_, ?_⟩
  · intro tools tc h
    unfold runToolCall
    rw [h]
  · intro t args m h
    unfold wrappedFunc
    rw [h]
  · intro k tools model req
    unfold chatPOST
    dsimp only
    split <;> rfl

/-- Witness for C7: an empty registry knows no tool, and a concrete throwing
tool is wrapped into an error value. -/
theorem chat_route_tool_failure_handling_witness :
    runToolCall [] ⟨some "1", "lookup", none⟩ =
      ⟨JSVal.obj [("success", JSVal.bool false),
                  ("error", JSVal.str ("Tool \"" ++ "lookup" ++ "\" not found"))],
       some "1", "lookup"⟩ ∧
    wrappedFunc ⟨"boom", fun _ => ToolRun.thrown "db down"⟩ [] =
      JSVal.obj [("success", JSVal.bool false),
                 ("error", JSVal.str ("Tool execution failed: " ++ "db down"))] ∧
    (chatPOST (some "key") [] (fun _ => ⟨"hello", []⟩) ⟨"hi", [], none⟩).status = 200 :=
  ⟨chat_route_tool_failure_handling.1 [] ⟨some "1", "lookup", none⟩ rfl,
   chat_route_tool_failure_handling.2.1 ⟨"boom", fun _ => ToolRun.thrown "db down"⟩ [] "db down" rfl,
   chat_route_tool_failure_handling.2.2 "key" [] (fun _ => ⟨"hello", []⟩) ⟨"hi", [], none⟩⟩

/-! ## Claims about the client navigation detection -/

/-- A successful literal strip decomposes the input. -/
lemma stripLit_eq (l : List Char) : ∀ cs rest, stripLit l cs = some rest → cs = l ++ rest := by
  induction l with
  | nil =>
    intro cs rest h
    simp [stripLit] at h
    simp [h]
  | cons p ps ih =>
    intro cs rest h
    cases cs with
    | nil => simp [stripLit] at h
    | cons c cs' =>
      unfold stripLit at h
      split at h
      · next hpc =>
        have hp : p = c := by simpa using hpc
        have := ih cs' rest h
        simp [hp, this]
      · cases h

/-- A successful brace capture is a front segment of the input. -/
lemma takeUntilBrace_eq : ∀ cs blob, takeUntilBrace cs = some blob → ∃ post, cs = blob ++ post := by
  intro cs
  induction cs with
  | nil => intro blob h; simp [takeUntilBrace] at h
  | cons c cs' ih =>
    intro blob h
    unfold takeUntilBrace at h
    split at h
    · next hc =>
      cases h
      exact ⟨cs', rfl⟩
    · next hc =>
      rw [Option.map_eq_some'] at h
      obtain ⟨b', hb', hblob⟩ := h
      obtain ⟨post, hp⟩ := ih b' hb'
      exact ⟨post, by simp [← hblob, hp]⟩

/-- A captured blob sits in the scanned text right after the literal marker
and some whitespace. -/
lemma scanForNav_sound : ∀ cs blob, scanForNav cs = some blob →
    ∃ pre ws post, cs = pre ++ markerChars ++ ws ++ blob.toList ++ post := by
  intro cs
  induction cs with
  | nil => intro blob h; simp [scanForNav] at h
  | cons c cs' ih =>
    intro blob h
    have hprep : scanForNav cs' = some blob →
        ∃ pre ws post, c :: cs' = pre ++ markerChars ++ ws ++ blob.toList ++ post := by
      intro h'
      obtain ⟨pre, ws, post, heq⟩ := ih blob h'
      exact ⟨c :: pre, ws, post, by simp [heq]⟩
    unfold scanForNav at h
    split at h
    · next rest hstrip =>
      have hdecomp : c :: cs' = markerChars ++ rest := stripLit_eq markerChars _ rest hstrip
      split at h
      · next rs hdrop =>
        split at h
        · next blob' htb =>
          cases h
          obtain ⟨post, hp⟩ := takeUntilBrace_eq rs blob' htb
          have hrest : rest = rest.takeWhile isJsWhitespace ++ ('{' :: rs) := by
            conv_lhs => rw [← List.takeWhile_append_dropWhile isJsWhitespace rest]
            rw [hdrop]
          refine ⟨[], rest.takeWhile isJsWhitespace, post, ?_⟩
          conv_lhs => rw [hdecomp, hrest, hp]
          simp [String.toList]
        · exact hprep h
      · exact hprep h
    · exact hprep h

/-- Claim C6: a finished assistant reply produces a pending navigation only
when its text contains the literal `[Tool: navigate_to_page]` marker followed
(after whitespace) by a brace-delimited blob that parses to a value declaring
`action:'navigate'` and a truthy — in particular non-empty — `url`; the
pending state derives from the fully accumulated reply alone. -/
theorem navigation_detection_only_if (parse : String → Option JSVal)
    (chunks : List String) (v : JSVal)
    (h : pendingAfterReply parse chunks = some v) :
    (∃ blob, scanForNav (String.join chunks).toList = some blob ∧ parse blob = some v ∧
      ∃ pre ws post, (String.join chunks).toList =
        pre ++ markerChars ++ ws ++ blob.toList ++ post) ∧
    getProp v "action" = .str "navigate" ∧
    jsFalsy (getProp v "url") = false ∧
    (∀ s, getProp v "url" = .str s → s ≠ "") := by
  unfold pendingAfterReply detectNavigationAction at h
  split at h
  · cases h
  · next blob hscan =>
    split at h
    · cases h
    · next v' hparse =>
      split at h
      · cases h
      · next s hsucc =>
        split at h
        · cases h
        · split at h
          · next hact =>
            split at h
            · cases h
            · next hurl =>
              cases h
              refine ⟨⟨blob, hscan, hparse, scanForNav_sound _ blob hscan⟩, hact, ?_, ?_⟩
              · simpa using hurl
              · intro u hu hemp
                rw [hu] at hurl
                simp [jsFalsy, hemp] at hurl
          · cases h

/-- Witness for C6: a reply carrying the marker and a blob that a concrete
parse maps to a navigation value. -/
theorem navigation_detection_only_if_witness :
    getProp (JSVal.obj [("success", JSVal.bool true), ("action", JSVal.str "navigate"),
      ("url", JSVal.str "/star/3")]) "action" = JSVal.str "navigate" ∧
    jsFalsy (getProp (JSVal.obj [("success", JSVal.bool true), ("action", JSVal.str "navigate"),
      ("url", JSVal.str "/star/3")]) "url") = false :=
  ⟨(navigation_detection_only_if
      (fun s => if s = "{}" then
        some (JSVal.obj [("success", JSVal.bool true), ("action", JSVal.str "navigate"),
          ("url", JSVal.str "/star/3")]) else none)
      ["x [Tool: navigate_to_page] {}", " y"]
      (JSVal.obj [("success", JSVal.bool true), ("action", JSVal.str "navigate"),
        ("url", JSVal.str "/star/3")]) rfl).2.1,
   (navigation_detection_only_if
      (fun s => if s = "{}" then
        some (JSVal.obj [("success", JSVal.bool true), ("action", JSVal.str "navigate"),
          ("url", JSVal.str "/star/3")]) else none)
      ["x [Tool: navigate_to_page] {}", " y"]
      (JSVal.obj [("success", JSVal.bool true), ("action", JSVal.str "navigate"),
        ("url", JSVal.str "/star/3")]) rfl).2.2.1⟩

/-! ## Claim about the star detail page -/

/-- Claim C8: a non-numeric id (NaN after `parseInt`) or a numeric id that
matches no star lands on the not-found state, and a page render happens only
for an id that parses and fetches a star. -/
theorem star_detail_not_found :
    (∀ table id, parseIntJS id = none → starDetailPage table id = .notFound) ∧
    (∀ table id n, parseIntJS id = some n → getStarById table n = none →
      starDetailPage table id = .notFound) ∧
    (∀ table id s, starDetailPage table id = .render s →
      ∃ n, parseIntJS id = some n ∧ getStarById table n = some s) := by
  refine ⟨?_, ?_, ?_⟩
  · intro table id h
    unfold starDetailPage
    rw [h]
  · intro table id n h1 h2
    unfold starDetailPage
    rw [h1]
    dsimp only
    rw [h2]
  · intro table id s h
    unfold starDetailPage at h
    split at h
    · cases h
    · next n hn =>
      split at h
      · cases h
      · next st hst =>
        cases h
        exact ⟨n, hn, hst⟩

/-- Witness for C8: a non-numeric id and an unknown numeric id on an empty
table. -/
theorem star_detail_not_found_witness :
    starDetailPage [] "abc" = PageResult.notFound ∧
    starDetailPage [] "999999999" = PageResult.notFound :=
  ⟨star_detail_not_found.1 [] "abc" rfl,
   star_detail_not_found.2.1 [] "999999999" 999999999 rfl rfl⟩

/-! ## Claim about the persistence shim -/

/-- A message element passing the per-message check has truthy id, role and
content and a numeric timestamp. -/
lemma validMsg_true_elim (m : JSVal) (h : validMsg m = some true) :
    jsFalsy (getProp m "id") = false ∧ jsFalsy (getProp m "role") = false ∧
    jsFalsy (getProp m "content") = false ∧
    jsTypeof (getProp m "timestamp") = "number" := by
  unfold validMsg at h
  split at h
  · cases h
  · cases h
  · simp only [Option.some.injEq, Bool.and_eq_true, Bool.not_eq_true', beq_iff_eq] at h
    exact ⟨h.1.1.1, h.1.1.2, h.1.2, h.2⟩

/-- A message list passing the loop passes each element's check. -/
lemma checkMsgs_true : ∀ l, checkMsgs l = some true → ∀ m ∈ l, validMsg m = some true := by
  intro l
  induction l with
  | nil =>
    intro _ m hm
    simp at hm
  | cons x xs ih =>
    intro h m hm
    unfold checkMsgs at h
    split at h
    · cases h
    · simp at h
    · next hx =>
      rcases List.mem_cons.mp hm with rfl | hm'
      · exact hx
      · exact ih h m hm'

/-- Shape facts extracted from a true validation verdict. -/
lemma validate_true_elim (v : JSVal) (h : validatePersistedState v = some true) :
    isArray (getProp v "messages") = true ∧
    jsTypeof (getProp v "isMinimized") = "boolean" ∧
    jsTypeof (getProp v "isOpen") = "boolean" ∧
    jsTypeof (getProp v "version") = "string" ∧
    checkMsgs (arrElems (getProp v "messages")) = some true := by
  unfold validatePersistedState at h
  split_ifs at h with h1 h2 h3 h4 h5 h6
  · simp at h
  · simp at h
  · simp at h
  · simp at h
  · simp at h
  · simp at h
  · refine ⟨?_, ?_, ?_, ?_, h⟩
    · simpa using h3
    · simpa [bne_iff_ne] using h4
    · simpa [bne_iff_ne] using h5
    · simpa [bne_iff_ne] using h6

/-- Claim C9: a stored `chatbot-state` value is restored only when its
messages field is an array, the minimized/open flags are booleans, the
version is a string and every message carries id, role, content and a
numeric timestamp; any mismatch or parse error removes the entry and keeps
the defaults; the version string's value changes nothing about the result. -/
theorem persisted_state_validation :
    (∀ v r, restoreState (.value v) = (some r, false) →
      validatePersistedState v = some true ∧
      isArray (getProp v "messages") = true ∧
      jsTypeof (getProp v "isMinimized") = "boolean" ∧
      jsTypeof (getProp v "isOpen") = "boolean" ∧
      jsTypeof (getProp v "version") = "string" ∧
      (∀ m ∈ arrElems (getProp v "messages"),
        jsFalsy (getProp m "id") = false ∧ jsFalsy (getProp m "role") = false ∧
        jsFalsy (getProp m "content") = false ∧
        jsTypeof (getProp m "timestamp") = "number")) ∧
    (∀ v, validatePersistedState v ≠ some true → restoreState (.value v) = (none, true)) ∧
    restoreState .unparsable = (none, true) ∧
    (∀ ms mi io s₁ s₂,
      restoreState (.value (.obj [("messages", ms), ("isMinimized", mi),
        ("isOpen", io), ("version", .str s₁)])) =
      restoreState (.value (.obj [("messages", ms), ("isMinimized", mi),
        ("isOpen", io), ("version", .str s₂)]))) := by
  refine ⟨?_, ?_, rfl, ?_⟩
  · intro v r h
    unfold restoreState at h
    dsimp only at h
    split at h
    · simp at h
    · simp at h
    · next hval =>
      obtain ⟨ha, hb, hc, hd, hmsgs⟩ := validate_true_elim v hval
      exact ⟨hval, ha, hb, hc, hd,
        fun m hm => validMsg_true_elim m (checkMsgs_true _ hmsgs m hm)⟩
  · intro v hne
    unfold restoreState
    dsimp only
    split
    · rfl
    · rfl
    · next heq => exact absurd heq hne
  · intro ms mi io s₁ s₂
    rfl

/-- Witness for C9: a well-formed stored state with one message restores, a
numeric stored value is rejected and removed. -/
theorem persisted_state_validation_witness :
    validatePersistedState (JSVal.obj [("messages", JSVal.arr
        [JSVal.obj [("id", JSVal.str "m1"), ("role", JSVal.str "user"),
          ("content", JSVal.str "hi"), ("timestamp", JSVal.num 5)]]),
      ("isMinimized", JSVal.bool false), ("isOpen", JSVal.bool true),
      ("version", JSVal.str "0.9.0")]) = some true ∧
    restoreState (.value (JSVal.num 3)) = (none, true) :=
  ⟨(persisted_state_validation.1 (JSVal.obj [("messages", JSVal.arr
        [JSVal.obj [("id", JSVal.str "m1"), ("role", JSVal.str "user"),
          ("content", JSVal.str "hi"), ("timestamp", JSVal.num 5)]]),
      ("isMinimized", JSVal.bool false), ("isOpen", JSVal.bool true),
      ("version", JSVal.str "0.9.0")])
      ⟨[JSVal.obj [("id", JSVal.str "m1"), ("role", JSVal.str "user"),
          ("content", JSVal.str "hi"), ("timestamp", JSVal.num 5)]], false, true⟩ rfl).1,
   persisted_state_validation.2.1 (JSVal.num 3) (by decide)⟩

end Starbroker
